import Mathlib

/-!
Shallow embedding of
`js_modules/dagster-ui/packages/ui-core/src/nav/LeftNavRepositorySection.tsx`.

The component is pure view composition: a root wrapper reads
`{allRepos, loading, visibleRepos, toggleVisible}` from the workspace context
and either renders a loading placeholder or delegates to the presentational
`LoadedRepositorySection`, whose `listContent` closure picks one of three
loaded views.  The JSX produced by the source has a fixed shape, so the render
tree is modelled by an inductive type whose constructors have fixed arity,
one per element form occurring in the file.

Two embeddings are given:
* a typed embedding over `List DagsterRepoOption`, matching the TypeScript
  types of the props, and
* a JS-runtime embedding over `Option (List DagsterRepoOption)` in the
  `Except` monad, in which `undefined.length` raises a `TypeError`, used to
  examine behaviour on absent/undefined inputs.
-/

/-- Modelled from the spec: `RepoAddress` is a stable key identifying a
repository for toggle operations.  The type is imported by the source from
`../workspace/types`, which is not among the given files. -/
structure RepoAddress where
  name : String
  location : String
deriving DecidableEq, Repr

/-- Modelled from the spec: `DagsterRepoOption` identifies a discoverable code
location/repository and is opaque to this layer beyond identity.  The type is
imported by the source from `../workspace/WorkspaceContext`, which is not
among the given files. -/
structure DagsterRepoOption where
  id : String
deriving DecidableEq, Repr

/-- Render tree of the component.  `R` is the type of the repo-list props
handed to the `RepoNavItem` collaborator (`List DagsterRepoOption` in the
typed embedding, `Option (List DagsterRepoOption)` in the JS-runtime
embedding); `E` is the result type of the `toggleVisible` callback.  Each
constructor mirrors one element form of the source JSX:
`divEmpty` a childless `div` with inline style, `divWrap` a `div` with inline
style and one child, `container`/`listContainer`/`emptyState` the three
styled-component wrappers, `box` the two-child `Box`, `spanStyled` a styled
`span` holding text, `body` the `Body` text element, and the three
collaborator elements `SectionedLeftNav`, `RepositoryLocationStateObserver`
and `RepoNavItem` with their props. -/
inductive VNode (R : Type) (E : Type) where
  | divEmpty (style : List (String × String))
  | divWrap (style : List (String × String)) (child : VNode R E)
  | container (listPart observerPart navPart : VNode R E)
  | listContainer (content : VNode R E)
  | emptyState (content : VNode R E)
  | box (first second : VNode R E)
  | spanStyled (style : List (String × String)) (text : String)
  | body (text : String)
  | sectionedLeftNav
  | repositoryLocationStateObserver
  | repoNavItem (allRepos : R) (selected : R) (onToggle : List RepoAddress → E)

/-- The populated branch of `listContent`:
`<div style=\x7b\x7boverflow: 'hidden'\x7d\x7d><SectionedLeftNav /></div>`. -/
def populatedView {R E : Type} : VNode R E :=
  .divWrap [("overflow", "hidden")] .sectionedLeftNav

/-- The empty-selection branch of `listContent`: the `EmptyState` shown when
some repos exist but none is selected. -/
def emptySelectionView {R E : Type} : VNode R E :=
  .emptyState (.box
    (.spanStyled [("fontSize", "16px"), ("fontWeight", "500")] "No definitions")
    (.body "Select a code location to see a list of jobs"))

/-- The empty-workspace branch of `listContent`: the `EmptyState` shown when
no repos exist at all. -/
def emptyWorkspaceView {R E : Type} : VNode R E :=
  .emptyState (.box
    (.spanStyled [("fontSize", "16px"), ("fontWeight", "500")] "No definitions")
    (.body "When you add a code location, your definitions will appear here"))

/-- Translation of the `listContent` closure of `LoadedRepositorySection`.
The closure captures the two list props; here they are explicit arguments.
`if (visibleRepos.length)` tests JS truthiness of a number, which for a
length means: nonzero. -/
def listContent {R E : Type} (allRepos visibleRepos : List DagsterRepoOption) :
    VNode R E :=
  if visibleRepos.length ≠ 0 then populatedView
  else if allRepos.length > 0 then emptySelectionView
  else emptyWorkspaceView

/-- Props of `LoadedRepositorySection`, exactly as typed in the source. -/
structure LoadedRepositorySectionProps (E : Type) where
  allRepos : List DagsterRepoOption
  visibleRepos : List DagsterRepoOption
  toggleVisible : List RepoAddress → E

/-- Translation of `LoadedRepositorySection`: a `Container` holding the
`ListContainer` around `listContent()`, the observer, and the `RepoNavItem`
with `allRepos`, `selected=\x7bvisibleRepos\x7d`, `onToggle=\x7btoggleVisible\x7d`. -/
def LoadedRepositorySection {E : Type} (p : LoadedRepositorySectionProps E) :
    VNode (List DagsterRepoOption) E :=
  .container
    (.listContainer (listContent p.allRepos p.visibleRepos))
    .repositoryLocationStateObserver
    (.repoNavItem p.allRepos p.visibleRepos p.toggleVisible)

/-- The four fields the component reads from `WorkspaceContext`, with the
types the source declares for them. -/
structure WorkspaceContextValue (E : Type) where
  allRepos : List DagsterRepoOption
  visibleRepos : List DagsterRepoOption
  loading : Bool
  toggleVisible : List RepoAddress → E

/-- Translation of the root `LeftNavRepositorySection` wrapper: on
`loading` it renders `<div style=\x7b\x7bflex: 1\x7d\x7d />`, otherwise it delegates to
`LoadedRepositorySection` with the context values passed through. -/
def LeftNavRepositorySection {E : Type} (ctx : WorkspaceContextValue E) :
    VNode (List DagsterRepoOption) E :=
  if ctx.loading then .divEmpty [("flex", "1")]
  else LoadedRepositorySection ⟨ctx.allRepos, ctx.visibleRepos, ctx.toggleVisible⟩

/-- Whether a render tree mounts the `RepositoryLocationStateObserver`
collaborator anywhere. -/
def containsObserver {R E : Type} : VNode R E → Bool
  | .repositoryLocationStateObserver => true
  | .divWrap _ c => containsObserver c
  | .container a b c => containsObserver a || containsObserver b || containsObserver c
  | .listContainer c => containsObserver c
  | .emptyState c => containsObserver c
  | .box a b => containsObserver a || containsObserver b
  | _ => false

/-- Whether a render tree mounts the `RepoNavItem` selector collaborator
anywhere. -/
def containsRepoNavItem {R E : Type} : VNode R E → Bool
  | .repoNavItem _ _ _ => true
  | .divWrap _ c => containsRepoNavItem c
  | .container a b c =>
      containsRepoNavItem a || containsRepoNavItem b || containsRepoNavItem c
  | .listContainer c => containsRepoNavItem c
  | .emptyState c => containsRepoNavItem c
  | .box a b => containsRepoNavItem a || containsRepoNavItem b
  | _ => false

/-- Whether a render tree mounts the `SectionedLeftNav` collaborator
anywhere. -/
def containsSectionedLeftNav {R E : Type} : VNode R E → Bool
  | .sectionedLeftNav => true
  | .divWrap _ c => containsSectionedLeftNav c
  | .container a b c =>
      containsSectionedLeftNav a || containsSectionedLeftNav b ||
        containsSectionedLeftNav c
  | .listContainer c => containsSectionedLeftNav c
  | .emptyState c => containsSectionedLeftNav c
  | .box a b => containsSectionedLeftNav a || containsSectionedLeftNav b
  | _ => false

/-- All text rendered by a tree, in document order. -/
def texts {R E : Type} : VNode R E → List String
  | .divEmpty _ => []
  | .divWrap _ c => texts c
  | .container a b c => texts a ++ texts b ++ texts c
  | .listContainer c => texts c
  | .emptyState c => texts c
  | .box a b => texts a ++ texts b
  | .spanStyled _ t => [t]
  | .body t => [t]
  | .sectionedLeftNav => []
  | .repositoryLocationStateObserver => []
  | .repoNavItem _ _ _ => []

/-- The first `onToggle` handler mounted in a render tree, if any. -/
def onToggleOf {R E : Type} : VNode R E → Option (List RepoAddress → E)
  | .repoNavItem _ _ g => some g
  | .divWrap _ c => onToggleOf c
  | .container a b c =>
      (onToggleOf a).orElse fun _ => (onToggleOf b).orElse fun _ => onToggleOf c
  | .listContainer c => onToggleOf c
  | .emptyState c => onToggleOf c
  | .box a b => (onToggleOf a).orElse fun _ => onToggleOf b
  | _ => none

/-- The four render states of the component, named as in the spec. -/
inductive RenderState where
  | loadingPlaceholder
  | populated
  | emptySelection
  | emptyWorkspace
deriving DecidableEq, Repr

/-- Classifies a loaded list-content tree into its render state.  The three
loaded views are told apart by their shape and by the body text of the two
empty states. -/
def stateOfListContent {R E : Type} : VNode R E → RenderState
  | .divWrap _ _ => .populated
  | .emptyState (.box _ (.body t)) =>
      if t = "Select a code location to see a list of jobs" then .emptySelection
      else .emptyWorkspace
  | _ => .loadingPlaceholder

/-- Classifies a full render tree of the component into its render state. -/
def stateOfVNode {R E : Type} : VNode R E → RenderState
  | .container (VNode.listContainer c) _ _ => stateOfListContent c
  | _ => .loadingPlaceholder

/-- Runtime errors of the JS embedding. -/
inductive RuntimeError where
  | typeError (msg : String)
deriving DecidableEq, Repr

/-- JS semantics of `xs.length` when `xs` may be `undefined`: property access
on `undefined` raises a `TypeError`. -/
def lengthJS {α : Type} (xs : Option (List α)) : Except RuntimeError Nat :=
  match xs with
  | none =>
      .error (.typeError "Cannot read properties of undefined (reading 'length')")
  | some l => .ok l.length

/-- The `listContent` closure under JS runtime semantics, where either list
prop may be `undefined`. -/
def listContentJS {E : Type} (allRepos visibleRepos : Option (List DagsterRepoOption)) :
    Except RuntimeError (VNode (Option (List DagsterRepoOption)) E) :=
  match lengthJS visibleRepos with
  | .error e => .error e
  | .ok vlen =>
      if vlen ≠ 0 then .ok populatedView
      else
        match lengthJS allRepos with
        | .error e => .error e
        | .ok alen =>
            if alen > 0 then .ok emptySelectionView
            else .ok emptyWorkspaceView

/-- Context values under JS runtime semantics: the list fields may be
`undefined`. -/
structure WorkspaceContextValueJS (E : Type) where
  allRepos : Option (List DagsterRepoOption)
  visibleRepos : Option (List DagsterRepoOption)
  loading : Bool
  toggleVisible : List RepoAddress → E

/-- `LoadedRepositorySection` under JS runtime semantics.  Evaluating
`listContent()` may raise; merely passing an undefined prop to `RepoNavItem`
does not. -/
def LoadedRepositorySectionJS {E : Type} (p : WorkspaceContextValueJS E) :
    Except RuntimeError (VNode (Option (List DagsterRepoOption)) E) :=
  match listContentJS p.allRepos p.visibleRepos with
  | .error e => .error e
  | .ok content =>
      .ok (.container
        (.listContainer content)
        .repositoryLocationStateObserver
        (.repoNavItem p.allRepos p.visibleRepos p.toggleVisible))

/-- The root wrapper under JS runtime semantics. -/
def LeftNavRepositorySectionJS {E : Type} (ctx : WorkspaceContextValueJS E) :
    Except RuntimeError (VNode (Option (List DagsterRepoOption)) E) :=
  if ctx.loading then .ok (.divEmpty [("flex", "1")])
  else LoadedRepositorySectionJS ctx

/-- Maps the repo-list props of a render tree, relating the typed and the JS
embeddings. -/
def VNode.mapRepos {R S E : Type} (f : R → S) : VNode R E → VNode S E
  | .divEmpty s => .divEmpty s
  | .divWrap s c => .divWrap s (c.mapRepos f)
  | .container a b c => .container (a.mapRepos f) (b.mapRepos f) (c.mapRepos f)
  | .listContainer c => .listContainer (c.mapRepos f)
  | .emptyState c => .emptyState (c.mapRepos f)
  | .box a b => .box (a.mapRepos f) (b.mapRepos f)
  | .spanStyled s t => .spanStyled s t
  | .body t => .body t
  | .sectionedLeftNav => .sectionedLeftNav
  | .repositoryLocationStateObserver => .repositoryLocationStateObserver
  | .repoNavItem a sel g => .repoNavItem (f a) (f sel) g

/-- Sample repository address used to instantiate theorems at concrete
inputs. -/
def sampleAddress : RepoAddress := ⟨"my_repo", "my_location"⟩

/-- Sample repository option used to instantiate theorems at concrete
inputs. -/
def sampleRepo : DagsterRepoOption := ⟨"my_repo@my_location"⟩

/-- A second sample repository option. -/
def sampleRepoB : DagsterRepoOption := ⟨"other_repo@other_location"⟩

/-- Concrete loading context used to instantiate theorems. -/
def loadingCtx : WorkspaceContextValue Unit :=
  ⟨[sampleRepo], [sampleRepo], true, fun _ => ()⟩

/-- Concrete non-loading context with an empty allRepos and a non-empty
visibleRepos. -/
def populatedCtx : WorkspaceContextValue Unit :=
  ⟨[], [sampleRepo], false, fun _ => ()⟩

/-- Concrete non-loading context with repos known but none selected. -/
def emptySelectionCtx : WorkspaceContextValue Unit :=
  ⟨[sampleRepo, sampleRepoB], [], false, fun _ => ()⟩

/-- Concrete non-loading context with no repos at all. -/
def emptyWorkspaceCtx : WorkspaceContextValue Unit :=
  ⟨[], [], false, fun _ => ()⟩

/-- C1: for every context with `loading = true`, the root wrapper renders only
the empty flexible placeholder `<div style=\x7b\x7bflex: 1\x7d\x7d />`: the output is that
constant node (hence independent of `allRepos` and `visibleRepos`, which are
never consulted), no observer, no selector and no sectioned list is mounted,
and no text is rendered. -/
theorem loading_renders_empty_placeholder {E : Type} (ctx : WorkspaceContextValue E)
    (h : ctx.loading = true) :
    LeftNavRepositorySection ctx = VNode.divEmpty [("flex", "1")] ∧
    containsObserver (LeftNavRepositorySection ctx) = false ∧
    containsRepoNavItem (LeftNavRepositorySection ctx) = false ∧
    containsSectionedLeftNav (LeftNavRepositorySection ctx) = false ∧
    texts (LeftNavRepositorySection ctx) = [] := by
  simp [LeftNavRepositorySection, h, containsObserver, containsRepoNavItem,
    containsSectionedLeftNav, texts]

/-- C1 witness: the loading theorem instantiated at a concrete context whose
repo lists are non-empty. -/
theorem loading_renders_empty_placeholder_witness :
    LeftNavRepositorySection loadingCtx = VNode.divEmpty [("flex", "1")] ∧
    containsObserver (LeftNavRepositorySection loadingCtx) = false ∧
    containsRepoNavItem (LeftNavRepositorySection loadingCtx) = false ∧
    containsSectionedLeftNav (LeftNavRepositorySection loadingCtx) = false ∧
    texts (LeftNavRepositorySection loadingCtx) = [] :=
  loading_renders_empty_placeholder loadingCtx rfl

/-- C2: for every context with `loading = false` and non-empty `visibleRepos`,
the rendered list content is the populated view (the `SectionedLeftNav`
collaborator wrapped in an overflow-hidden `div`), whatever `allRepos` is. -/
theorem visible_nonempty_renders_populated {E : Type} (ctx : WorkspaceContextValue E)
    (hload : ctx.loading = false) (hvis : ctx.visibleRepos ≠ []) :
    LeftNavRepositorySection ctx =
      VNode.container
        (VNode.listContainer
          (VNode.divWrap [("overflow", "hidden")] VNode.sectionedLeftNav))
        VNode.repositoryLocationStateObserver
        (VNode.repoNavItem ctx.allRepos ctx.visibleRepos ctx.toggleVisible) := by
  simp [LeftNavRepositorySection, hload, LoadedRepositorySection, listContent,
    List.length_eq_zero, hvis, populatedView]

/-- C2 witness: the populated theorem instantiated at a concrete context whose
`allRepos` is empty while `visibleRepos` is not. -/
theorem visible_nonempty_renders_populated_witness :
    LeftNavRepositorySection populatedCtx =
      VNode.container
        (VNode.listContainer
          (VNode.divWrap [("overflow", "hidden")] VNode.sectionedLeftNav))
        VNode.repositoryLocationStateObserver
        (VNode.repoNavItem populatedCtx.allRepos populatedCtx.visibleRepos
          populatedCtx.toggleVisible) :=
  visible_nonempty_renders_populated populatedCtx rfl (by decide)

/-- C3: for every context with `loading = false`, empty `visibleRepos` and
non-empty `allRepos`, the rendered list content is the empty-selection state,
and the texts it renders are exactly "No definitions" and "Select a code
location to see a list of jobs". -/
theorem no_selection_renders_empty_selection {E : Type}
    (ctx : WorkspaceContextValue E) (hload : ctx.loading = false)
    (hvis : ctx.visibleRepos = []) (hall : ctx.allRepos ≠ []) :
    LeftNavRepositorySection ctx =
      VNode.container
        (VNode.listContainer emptySelectionView)
        VNode.repositoryLocationStateObserver
        (VNode.repoNavItem ctx.allRepos ctx.visibleRepos ctx.toggleVisible) ∧
    texts (listContent (R := List DagsterRepoOption) (E := E)
        ctx.allRepos ctx.visibleRepos) =
      ["No definitions", "Select a code location to see a list of jobs"] := by
  have hlen : ctx.allRepos.length > 0 := List.length_pos.mpr hall
  constructor
  · simp [LeftNavRepositorySection, hload, LoadedRepositorySection, listContent,
      hvis, hlen]
  · simp [listContent, hvis, hlen, emptySelectionView, texts]

/-- C3 witness: the empty-selection theorem instantiated at a concrete context
with two known repos and none selected. -/
theorem no_selection_renders_empty_selection_witness :
    LeftNavRepositorySection emptySelectionCtx =
      VNode.container
        (VNode.listContainer emptySelectionView)
        VNode.repositoryLocationStateObserver
        (VNode.repoNavItem emptySelectionCtx.allRepos
          emptySelectionCtx.visibleRepos emptySelectionCtx.toggleVisible) ∧
    texts (listContent (R := List DagsterRepoOption) (E := Unit)
        emptySelectionCtx.allRepos emptySelectionCtx.visibleRepos) =
      ["No definitions", "Select a code location to see a list of jobs"] :=
  no_selection_renders_empty_selection emptySelectionCtx rfl rfl (by decide)

/-- C4: for every context with `loading = false` and both lists empty, the
rendered list content is the empty-workspace state, and the texts it renders
are exactly "No definitions" and "When you add a code location, your
definitions will appear here". -/
theorem no_repos_renders_empty_workspace {E : Type}
    (ctx : WorkspaceContextValue E) (hload : ctx.loading = false)
    (hvis : ctx.visibleRepos = []) (hall : ctx.allRepos = []) :
    LeftNavRepositorySection ctx =
      VNode.container
        (VNode.listContainer emptyWorkspaceView)
        VNode.repositoryLocationStateObserver
        (VNode.repoNavItem ctx.allRepos ctx.visibleRepos ctx.toggleVisible) ∧
    texts (listContent (R := List DagsterRepoOption) (E := E)
        ctx.allRepos ctx.visibleRepos) =
      ["No definitions",
        "When you add a code location, your definitions will appear here"] := by
  constructor
  · simp [LeftNavRepositorySection, hload, LoadedRepositorySection, listContent,
      hvis, hall]
  · simp [listContent, hvis, hall, emptyWorkspaceView, texts]

/-- C4 witness: the empty-workspace theorem instantiated at the concrete
context with no repos. -/
theorem no_repos_renders_empty_workspace_witness :
    LeftNavRepositorySection emptyWorkspaceCtx =
      VNode.container
        (VNode.listContainer emptyWorkspaceView)
        VNode.repositoryLocationStateObserver
        (VNode.repoNavItem emptyWorkspaceCtx.allRepos
          emptyWorkspaceCtx.visibleRepos emptyWorkspaceCtx.toggleVisible) ∧
    texts (listContent (R := List DagsterRepoOption) (E := Unit)
        emptyWorkspaceCtx.allRepos emptyWorkspaceCtx.visibleRepos) =
      ["No definitions",
        "When you add a code location, your definitions will appear here"] :=
  no_repos_renders_empty_workspace emptyWorkspaceCtx rfl rfl rfl

/-- C5: for every non-loading context, the loaded section renders the
`Container` holding exactly the `ListContainer` around the list content, the
`RepositoryLocationStateObserver`, and the `RepoNavItem` selector receiving
the context's `allRepos` as option set, `visibleRepos` as selected subset and
`toggleVisible` as change handler, all passed through unchanged; in
particular the observer and the selector are mounted in every loaded state. -/
theorem loaded_renders_observer_and_selector {E : Type}
    (ctx : WorkspaceContextValue E) (hload : ctx.loading = false) :
    LeftNavRepositorySection ctx =
      VNode.container
        (VNode.listContainer
          (listContent (R := List DagsterRepoOption) (E := E)
            ctx.allRepos ctx.visibleRepos))
        VNode.repositoryLocationStateObserver
        (VNode.repoNavItem ctx.allRepos ctx.visibleRepos ctx.toggleVisible) ∧
    containsObserver (LeftNavRepositorySection ctx) = true ∧
    containsRepoNavItem (LeftNavRepositorySection ctx) = true := by
  refine ⟨by simp [LeftNavRepositorySection, hload, LoadedRepositorySection], ?_, ?_⟩ <;>
    simp [LeftNavRepositorySection, hload, LoadedRepositorySection,
      containsObserver, containsRepoNavItem]

/-- C5 witness: the loaded-section theorem instantiated at the concrete
empty-selection context. -/
theorem loaded_renders_observer_and_selector_witness :
    LeftNavRepositorySection emptySelectionCtx =
      VNode.container
        (VNode.listContainer
          (listContent (R := List DagsterRepoOption) (E := Unit)
            emptySelectionCtx.allRepos emptySelectionCtx.visibleRepos))
        VNode.repositoryLocationStateObserver
        (VNode.repoNavItem emptySelectionCtx.allRepos
          emptySelectionCtx.visibleRepos emptySelectionCtx.toggleVisible) ∧
    containsObserver (LeftNavRepositorySection emptySelectionCtx) = true ∧
    containsRepoNavItem (LeftNavRepositorySection emptySelectionCtx) = true :=
  loaded_renders_observer_and_selector emptySelectionCtx rfl

/-- The list-content subtree never mounts a toggle handler: whichever branch
is taken, it holds no `RepoNavItem`. -/
theorem onToggleOf_listContent {R E : Type} (a v : List DagsterRepoOption) :
    onToggleOf (listContent (R := R) (E := E) a v) = none := by
  unfold listContent
  split
  · rfl
  · split <;> rfl

/-- C6: the toggle handler mounted on the `RepoNavItem` selector is exactly
the `toggleVisible` callback of the props (identity forwarding: the source
writes `onToggle=\x7btoggleVisible\x7d`), so invoking it with any sequence of
`RepoAddress` values invokes `toggleVisible` with that exact sequence, with
no transformation, reordering, filtering or duplication. -/
theorem onToggle_forwards_toggleVisible {E : Type}
    (p : LoadedRepositorySectionProps E) :
    onToggleOf (LoadedRepositorySection p) = some p.toggleVisible ∧
    ∀ addrs : List RepoAddress,
      (onToggleOf (LoadedRepositorySection p)).map (fun g => g addrs) =
        some (p.toggleVisible addrs) := by
  have h : onToggleOf (LoadedRepositorySection p) = some p.toggleVisible := by
    simp [LoadedRepositorySection, onToggleOf, onToggleOf_listContent,
      Option.orElse]
  exact ⟨h, fun addrs => by simp [h]⟩

/-- C6 witness: the forwarding theorem instantiated at concrete props, where
the handler extracted from the rendered tree is the props' callback and maps
the concrete sequence `[sampleAddress]` exactly as the callback does. -/
theorem onToggle_forwards_toggleVisible_witness :
    onToggleOf (LoadedRepositorySection
        (⟨[sampleRepo], [sampleRepo], fun addrs => addrs⟩ :
          LoadedRepositorySectionProps (List RepoAddress))) =
      some (fun addrs => addrs) ∧
    ∀ addrs : List RepoAddress,
      (onToggleOf (LoadedRepositorySection
          (⟨[sampleRepo], [sampleRepo], fun addrs => addrs⟩ :
            LoadedRepositorySectionProps (List RepoAddress)))).map
          (fun g => g addrs) =
        some addrs :=
  onToggle_forwards_toggleVisible
    (⟨[sampleRepo], [sampleRepo], fun addrs => addrs⟩ :
      LoadedRepositorySectionProps (List RepoAddress))

/-- C7 counterexample: at the concrete context with `loading = false`, an
array-valued `allRepos = []` and an undefined `visibleRepos`, rendering
raises a TypeError at the `visibleRepos.length` access instead of treating
the undefined input as an empty sequence and rendering an empty state. -/
theorem undefined_visibleRepos_raises :
    LeftNavRepositorySectionJS (E := Unit)
        ⟨some [], none, false, fun _ => ()⟩ =
      Except.error (RuntimeError.typeError
        "Cannot read properties of undefined (reading 'length')") := rfl

/-- C7 amended: for every context whose `allRepos` and `visibleRepos` are
present arrays, as the TypeScript prop types require, rendering never raises
and agrees with the typed embedding (so with both arrays empty it degrades to
the no-definitions empty state); an undefined list input is not treated as an
empty sequence but raises a TypeError at its `.length` access. -/
theorem defined_inputs_never_raise {E : Type} (a v : List DagsterRepoOption)
    (loading : Bool) (tv : List RepoAddress → E) :
    LeftNavRepositorySectionJS ⟨some a, some v, loading, tv⟩ =
      Except.ok (VNode.mapRepos some
        (LeftNavRepositorySection ⟨a, v, loading, tv⟩)) := by
  cases loading with
  | true => rfl
  | false =>
      simp only [LeftNavRepositorySectionJS, LeftNavRepositorySection,
        LoadedRepositorySectionJS, LoadedRepositorySection, listContentJS,
        lengthJS, listContent, if_neg, Bool.false_eq_true, if_false]
      by_cases hv : v.length ≠ 0
      · simp [hv, populatedView, VNode.mapRepos]
      · by_cases ha : a.length > 0
        · simp [hv, ha, emptySelectionView, VNode.mapRepos]
        · simp [hv, ha, emptyWorkspaceView, VNode.mapRepos]

/-- C7 amended witness: the defined-inputs theorem instantiated at the
concrete context with both arrays empty, which renders the empty-workspace
state without raising. -/
theorem defined_inputs_never_raise_witness :
    LeftNavRepositorySectionJS (E := Unit)
        ⟨some [], some [], false, fun _ => ()⟩ =
      Except.ok (VNode.mapRepos some
        (LeftNavRepositorySection ⟨[], [], false, fun _ => ()⟩)) :=
  defined_inputs_never_raise [] [] false (fun _ => ())

/-- C8: for every context, exactly one of the four render states is produced.
`stateOfVNode` assigns every render tree a single state, and that state holds
exactly under the corresponding condition on `loading`, `visibleRepos` and
`allRepos`: the four conditions are mutually exclusive and together cover all
combinations, so each context produces exactly one render state. -/
theorem render_states_partition {E : Type} (ctx : WorkspaceContextValue E) :
    (stateOfVNode (LeftNavRepositorySection ctx) = RenderState.loadingPlaceholder ↔
      ctx.loading = true) ∧
    (stateOfVNode (LeftNavRepositorySection ctx) = RenderState.populated ↔
      ctx.loading = false ∧ ctx.visibleRepos ≠ []) ∧
    (stateOfVNode (LeftNavRepositorySection ctx) = RenderState.emptySelection ↔
      ctx.loading = false ∧ ctx.visibleRepos = [] ∧ ctx.allRepos ≠ []) ∧
    (stateOfVNode (LeftNavRepositorySection ctx) = RenderState.emptyWorkspace ↔
      ctx.loading = false ∧ ctx.visibleRepos = [] ∧ ctx.allRepos = []) := by
  obtain ⟨a, v, loading, tv⟩ := ctx
  cases loading <;> cases v <;> cases a <;>
    simp [LeftNavRepositorySection, LoadedRepositorySection, listContent,
      stateOfVNode, stateOfListContent, populatedView, emptySelectionView,
      emptyWorkspaceView]

/-- C8 witness: the partition theorem instantiated at the concrete populated
context. -/
theorem render_states_partition_witness :
    (stateOfVNode (LeftNavRepositorySection populatedCtx) =
        RenderState.loadingPlaceholder ↔ populatedCtx.loading = true) ∧
    (stateOfVNode (LeftNavRepositorySection populatedCtx) =
        RenderState.populated ↔
      populatedCtx.loading = false ∧ populatedCtx.visibleRepos ≠ []) ∧
    (stateOfVNode (LeftNavRepositorySection populatedCtx) =
        RenderState.emptySelection ↔
      populatedCtx.loading = false ∧ populatedCtx.visibleRepos = [] ∧
        populatedCtx.allRepos ≠ []) ∧
    (stateOfVNode (LeftNavRepositorySection populatedCtx) =
        RenderState.emptyWorkspace ↔
      populatedCtx.loading = false ∧ populatedCtx.visibleRepos = [] ∧
        populatedCtx.allRepos = []) :=
  render_states_partition populatedCtx

/-- C9: rendering is a pure, deterministic function of the four consumed
context values: any two contexts agreeing on `allRepos`, `visibleRepos`,
`loading` and `toggleVisible` render identical output, with no dependence on
hidden state. -/
theorem render_deterministic {E : Type} (c1 c2 : WorkspaceContextValue E)
    (ha : c1.allRepos = c2.allRepos) (hv : c1.visibleRepos = c2.visibleRepos)
    (hl : c1.loading = c2.loading) (ht : c1.toggleVisible = c2.toggleVisible) :
    LeftNavRepositorySection c1 = LeftNavRepositorySection c2 := by
  obtain ⟨a1, v1, l1, t1⟩ := c1
  obtain ⟨a2, v2, l2, t2⟩ := c2
  cases ha
  cases hv
  cases hl
  cases ht
  rfl

/-- C9 witness: the determinism theorem instantiated at two separately
constructed but field-wise equal concrete contexts. -/
theorem render_deterministic_witness :
    LeftNavRepositorySection
        (⟨[sampleRepo], [], false, fun _ => ()⟩ : WorkspaceContextValue Unit) =
      LeftNavRepositorySection
        (⟨[sampleRepo], [], false, fun _ => ()⟩ : WorkspaceContextValue Unit) :=
  render_deterministic
    (⟨[sampleRepo], [], false, fun _ => ()⟩ : WorkspaceContextValue Unit)
    (⟨[sampleRepo], [], false, fun _ => ()⟩ : WorkspaceContextValue Unit)
    rfl rfl rfl rfl

/-- C10: for any two non-loading contexts, possibly over different callback
result types, that agree on whether `visibleRepos` is empty and on whether
`allRepos` is empty, the rendered output falls in the same render state:
branch selection depends only on the emptiness of the two sequences, never on
the identity, order or number of their elements. -/
theorem branch_depends_only_on_emptiness {E F : Type}
    (c1 : WorkspaceContextValue E) (c2 : WorkspaceContextValue F)
    (h1 : c1.loading = false) (h2 : c2.loading = false)
    (hv : c1.visibleRepos = [] ↔ c2.visibleRepos = [])
    (ha : c1.allRepos = [] ↔ c2.allRepos = []) :
    stateOfVNode (LeftNavRepositorySection c1) =
      stateOfVNode (LeftNavRepositorySection c2) := by
  obtain ⟨a1, v1, l1, t1⟩ := c1
  obtain ⟨a2, v2, l2, t2⟩ := c2
  simp only at h1 h2 hv ha
  subst h1
  subst h2
  cases v1 <;> cases v2 <;> cases a1 <;> cases a2 <;>
    simp_all [LeftNavRepositorySection, LoadedRepositorySection, listContent,
      stateOfVNode, stateOfListContent, populatedView, emptySelectionView,
      emptyWorkspaceView]

/-- C10 witness: the noninterference theorem instantiated at two concrete
non-loading contexts with different contents, orders and lengths but the same
emptiness pattern. -/
theorem branch_depends_only_on_emptiness_witness :
    stateOfVNode (LeftNavRepositorySection
        (⟨[sampleRepo], [], false, fun _ => ()⟩ : WorkspaceContextValue Unit)) =
      stateOfVNode (LeftNavRepositorySection
        (⟨[sampleRepoB, sampleRepo], [], false, fun _ => [()]⟩ :
          WorkspaceContextValue (List Unit))) :=
  branch_depends_only_on_emptiness
    (⟨[sampleRepo], [], false, fun _ => ()⟩ : WorkspaceContextValue Unit)
    (⟨[sampleRepoB, sampleRepo], [], false, fun _ => [()]⟩ :
      WorkspaceContextValue (List Unit))
    rfl rfl (by decide) (by decide)
